import Mathlib

/-
  Shallow embedding of plugins/module_utils/btrfs.py (community.general btrfs
  module utilities).  Python strings are modelled as List Char; Python dicts
  (which preserve insertion order and replace values in place on re-assignment)
  are modelled as association lists with replace-or-append insertion; Python
  exceptions are modelled with Except PyErr.
-/

/-- Kinds of Python exception observable in the modelled code paths:
TypeError for illegal dynamic operations (subscripting an object without
a getitem method, calling a constructor with missing required arguments,
adding an object to a str), BtrfsModuleException for the module's own
raised errors (KeyError and ValueError inside the findmnt parser are caught
and re-raised as BtrfsModuleException), and a nonTermination marker used
where the Python loop or recursion provably makes no progress. -/
inductive PyErr where
  | typeError
  | btrfsModuleException
  | nonTermination
  deriving DecidableEq

/-- Python dict assignment d[k] = v: replace the value at the first (unique)
occurrence of the key, keeping its position, else append at the end. -/
def assocInsert {κ α : Type} [DecidableEq κ] (d : List (κ × α)) (k : κ) (v : α) :
    List (κ × α) :=
  match d with
  | [] => [(k, v)]
  | kv :: rest => if kv.1 = k then (k, v) :: rest else kv :: assocInsert rest k v

/-- Python dict lookup d[k] (as an Option: membership test plus access). -/
def assocGet? {κ α : Type} [DecidableEq κ] (d : List (κ × α)) (k : κ) : Option α :=
  (d.find? (fun kv => kv.1 = k)).map (fun kv => kv.2)

/- ------------------------------------------------------------------
   normalize_subvolume_path (btrfs.py lines 15-23)

     fstree_stripped = re.sub(r"^<FS_TREE>", "", path)
     result = re.sub(r"/+$", "", re.sub(r"/+", "/", "/" + fstree_stripped))
     return result if len(result) > 0 else "/"
   ------------------------------------------------------------------ -/

/-- re.sub with the anchored FS_TREE pattern: strip one leading occurrence
of the literal marker. -/
def stripFsTree (p : List Char) : List Char :=
  match p with
  | '<' :: 'F' :: 'S' :: '_' :: 'T' :: 'R' :: 'E' :: 'E' :: '>' :: rest => rest
  | _ => p

/-- re.sub(r"/+", "/", s): collapse every run of consecutive slashes to one. -/
def collapse : List Char → List Char
  | [] => []
  | [c] => [c]
  | a :: b :: rest =>
    if a = '/' ∧ b = '/' then collapse (b :: rest) else a :: collapse (b :: rest)

/-- re.sub(r"/+$", "", s): drop every trailing slash. -/
def dropTrailingSlashes : List Char → List Char
  | [] => []
  | c :: rest =>
    let r := dropTrailingSlashes rest
    if c = '/' ∧ r = [] then [] else c :: r

/-- normalize_subvolume_path from btrfs.py: strip a leading FS_TREE marker,
prepend a slash, collapse slash runs, drop trailing slashes and map the
empty result to a single slash. -/
def normalize_subvolume_path (p : List Char) : List Char :=
  if dropTrailingSlashes (collapse ('/' :: stripFsTree p)) = [] then ['/']
  else dropTrailingSlashes (collapse ('/' :: stripFsTree p))

/-- Boolean predicate: the list contains no two consecutive slashes. -/
def noDS : List Char → Bool
  | a :: b :: rest => (!(a = '/' && b = '/')) && noDS (b :: rest)
  | _ => true

/- ------------------------------------------------------------------
   BtrfsMountpoint (btrfs.py lines 40-90) and the findmnt output parser,
   BtrfsInfoProvider.__parse_mountpoint_pairs / __extract_mount_options
   (btrfs.py lines 344-398).
   ------------------------------------------------------------------ -/

/-- BtrfsMountpoint: path, device, subvolume id and subvolume path as stored
by BtrfsMountpoint.__init__. -/
structure Mountpoint where
  path : List Char
  device : List Char
  subvolume_id : Int
  subvolume_path : List Char
  deriving DecidableEq

/-- Python str.split(sep) for a one-character separator: the empty string
splits to one empty field, separators at the ends produce empty fields. -/
def splitOnChar (c : Char) : List Char → List (List Char)
  | [] => [[]]
  | x :: xs =>
    if x = c then [] :: splitOnChar c xs
    else
      match splitOnChar c xs with
      | [] => [[x]]
      | y :: ys => (x :: y) :: ys

/-- Python option.split("=", maxsplit=1): key before the first equals sign,
and the value after it when one exists. -/
def splitOnceEq : List Char → (List Char × Option (List Char))
  | [] => ([], none)
  | c :: rest =>
    if c = '=' then ([], some rest)
    else
      let r := splitOnceEq rest
      (c :: r.1, r.2)

/-- BtrfsInfoProvider.__extract_mount_options: split the options field on
commas, then each option on its first equals sign, into a dict whose values
are None for valueless options. -/
def extract_mount_options (mount_options : List Char) :
    List (List Char × Option (List Char)) :=
  (splitOnChar ',' mount_options).foldl
    (fun res option =>
      let param := splitOnceEq option
      assocInsert res param.1 param.2)
    []

/-- Python \s whitespace class (ASCII part): space, tab, newline, carriage
return, vertical tab, form feed. -/
def isPySpace (c : Char) : Bool :=
  c = ' ' || c = '\t' || c = '\n' || c = '\r' || c = '\x0b' || c = '\x0c'

/-- Decimal digit value of a character, when it is an ASCII digit. -/
def digitVal (c : Char) : Option Nat :=
  if c.isDigit then some (c.toNat - '0'.toNat) else none

/-- Continuation of pyInt after one digit was read: further digits, with
single underscores permitted between digits only. -/
def parseDigitsRest : List Char → Nat → Option Nat
  | [], acc => some acc
  | '_' :: c :: rest, acc =>
    match digitVal c with
    | some d => parseDigitsRest rest (acc * 10 + d)
    | none => none
  | ['_'], _ => none
  | c :: rest, acc =>
    match digitVal c with
    | some d => parseDigitsRest rest (acc * 10 + d)
    | none => none

/-- Python int(str) in base 10: surrounding whitespace stripped, optional
sign, at least one ASCII digit, underscores allowed between digits; none
models the ValueError raised on any other shape. -/
def pyInt (s : List Char) : Option Int :=
  let t := (((s.dropWhile isPySpace).reverse).dropWhile isPySpace).reverse
  match t with
  | '+' :: c :: rest =>
    (digitVal c).bind fun d => (parseDigitsRest rest d).map (fun n => Int.ofNat n)
  | '-' :: c :: rest =>
    (digitVal c).bind fun d => (parseDigitsRest rest d).map (fun n => -(Int.ofNat n))
  | c :: rest =>
    (digitVal c).bind fun d => (parseDigitsRest rest d).map (fun n => Int.ofNat n)
  | [] => none

/-- Tokens of the fixed findmnt line pattern used by
BtrfsInfoProvider.__parse_mountpoint_pairs: literal text, a greedy capturing
group for dot-star, one-or-more whitespace and zero-or-more whitespace. -/
inductive FTok where
  | lit (s : List Char)
  | grp
  | ws1
  | ws0

/-- Match a literal token at the front of the input, returning the rest. -/
def dropLit : List Char → List Char → Option (List Char)
  | [], rest => some rest
  | _ :: _, [] => none
  | c :: cs, x :: xs => if x = c then dropLit cs xs else none

/-- All decompositions of a list into contiguous (front, back) pieces, with
the longest front first: the order a greedy regex group tries them. -/
def splitsLF (l : List Char) : List (List Char × List Char) :=
  ((List.range (l.length + 1)).reverse).map (fun n => (l.take n, l.drop n))

/-- Whitespace-only fronts of the input paired with the rest, longest first,
each front of length at least lo: the candidates for a greedy whitespace
repetition token. -/
def wsSplitsLF (lo : Nat) (l : List Char) : List (List Char × List Char) :=
  let w := l.takeWhile isPySpace
  (((List.range (w.length + 1)).reverse).filter (fun n => lo ≤ n)).map
    (fun n => (l.take n, l.drop n))

/-- Backtracking matcher for a token sequence against the whole input
(the pattern is anchored at both ends), returning the captured groups.
Greedy tokens try longer matches first and on failure backtrack, exactly
as the Python regex engine does on this pattern. -/
def matchToks : List FTok → List Char → Option (List (List Char))
  | [], input => if input = [] then some [] else none
  | .lit s :: rest, input =>
    match dropLit s input with
    | some r => matchToks rest r
    | none => none
  | .grp :: rest, input =>
    (splitsLF input).findSome?
      (fun ps => (matchToks rest ps.2).map (fun gs => ps.1 :: gs))
  | .ws1 :: rest, input =>
    (wsSplitsLF 1 input).findSome?
      (fun ps => matchToks rest ps.2)
  | .ws0 :: rest, input =>
    (wsSplitsLF 0 input).findSome?
      (fun ps => matchToks rest ps.2)

/-- The findmnt -nvP line pattern from __parse_mountpoint_pairs:
TARGET, SOURCE, FSTYPE and OPTIONS fields, each a quoted greedy group,
separated by whitespace, with optional trailing whitespace. -/
def findmntPattern : List FTok :=
  [ .lit "TARGET=\"".toList, .grp, .lit "\"".toList, .ws1,
    .lit "SOURCE=\"".toList, .grp, .lit "\"".toList, .ws1,
    .lit "FSTYPE=\"".toList, .grp, .lit "\"".toList, .ws1,
    .lit "OPTIONS=\"".toList, .grp, .lit "\"".toList, .ws0 ]

/-- The four captured fields of a findmnt line. -/
structure MatchGroups where
  target : List Char
  source : List Char
  fstype : List Char
  options : List Char
  deriving DecidableEq

/-- pattern.search(line) for the anchored findmnt pattern: the named groups
when the line matches. -/
def findmntMatch (line : List Char) : Option MatchGroups :=
  match matchToks findmntPattern line with
  | some [t, s, f, o] => some ⟨t, s, f, o⟩
  | _ => none

/-- BtrfsInfoProvider.__parse_mountpoint_pairs: match the findmnt pattern,
extract the mount options, require the subvolid and subvol sub-keys with
values (a missing key raises KeyError, a valueless key raises ValueError,
a non-integer subvolid raises ValueError; every one of these is caught and
re-raised as BtrfsModuleException), and build the BtrfsMountpoint. -/
def parse_mountpoint_pairs (line : List Char) : Except PyErr Mountpoint :=
  match findmntMatch line with
  | none => .error .btrfsModuleException
  | some groups =>
    let mount_options := extract_mount_options groups.options
    match assocGet? mount_options "subvolid".toList with
    | none => .error .btrfsModuleException
    | some subvolid? =>
      match assocGet? mount_options "subvol".toList with
      | none => .error .btrfsModuleException
      | some subvol? =>
        match subvolid?, subvol? with
        | some subvolid, some subvol =>
          match pyInt subvolid with
          | none => .error .btrfsModuleException
          | some n =>
            .ok { path := groups.target, device := groups.source,
                  subvolume_id := n, subvolume_path := subvol }
        | _, _ => .error .btrfsModuleException

/- ------------------------------------------------------------------
   BtrfsSubvolume and BtrfsFilesystem value-level state
   (btrfs.py lines 401-534 and 537-835).  The per-object fields of a
   BtrfsSubvolume are id, path, parent and the mountpoints list; a
   BtrfsFilesystem holds uuid, label, default subvolume id, devices, the
   mount table dict (subvolume id to mountpoint list) and the subvolume
   dict (subvolume id to subvolume).
   ------------------------------------------------------------------ -/

/-- The data fields of a BtrfsSubvolume (the back-reference to the owning
filesystem is passed explicitly to the operations that use it). -/
structure SubvolumeRec where
  id : Int
  path : List Char
  parent : Option Int
  mountpoints : List Mountpoint
  deriving DecidableEq

/-- The data fields of a BtrfsFilesystem. -/
structure BtrfsFilesystemRec where
  uuid : List Char
  label : Option (List Char)
  default_subvolid : Int
  devices : List (List Char)
  mountpoints : List (Int × List Mountpoint)
  subvolumes : List (Int × SubvolumeRec)
  deriving DecidableEq

/-- BtrfsFilesystem.update_mountpoints: replace the mount table with a fresh
dict grouping the given mountpoints by subvolume id, in input order. -/
def update_mountpoints (fs : BtrfsFilesystemRec) (mountpoints : List Mountpoint) :
    BtrfsFilesystemRec :=
  { fs with
    mountpoints :=
      mountpoints.foldl
        (fun d mp =>
          assocInsert d mp.subvolume_id ((assocGet? d mp.subvolume_id).getD [] ++ [mp]))
        [] }

/-- BtrfsFilesystem.update_subvolumes: replace the subvolume dict with a
fresh dict keyed by id; a subvolume whose id has an entry in the current
mount table gets that entry as its mountpoints list before insertion. -/
def update_subvolumes (fs : BtrfsFilesystemRec) (subvolumes : List SubvolumeRec) :
    BtrfsFilesystemRec :=
  { fs with
    subvolumes :=
      subvolumes.foldl
        (fun d subvolume =>
          let subvolume :=
            match assocGet? fs.mountpoints subvolume.id with
            | some mps => { subvolume with mountpoints := mps }
            | none => subvolume
          assocInsert d subvolume.id subvolume)
        [] }

/-- BtrfsFilesystem.update_default_subvolume_id. -/
def update_default_subvolume_id (fs : BtrfsFilesystemRec) (subvol_id : Int) :
    BtrfsFilesystemRec :=
  { fs with default_subvolid := subvol_id }

/-- BtrfsFilesystem.get_any_mountpoint: the first mountpoint of the first
non-empty mount table entry, in dict insertion order. -/
def get_any_mountpoint (fs : BtrfsFilesystemRec) : Option Mountpoint :=
  fs.mountpoints.findSome? (fun kv => kv.2.head?)

/-- BtrfsFilesystem.refresh_subvolumes: when any mountpoint resolves, fetch
the subvolume listing through the provider (which may itself fail) and
replace the subvolume dict; with no mountpoint the call returns with the
state untouched.  The provider is modelled as the value its query would
produce. -/
def refresh_subvolumes (provider : Except PyErr (List SubvolumeRec))
    (fs : BtrfsFilesystemRec) : Except PyErr BtrfsFilesystemRec :=
  match get_any_mountpoint fs with
  | none => .ok fs
  | some _ => do
    let subvolumes ← provider
    .ok (update_subvolumes fs subvolumes)

/-- BtrfsFilesystem.refresh_default_subvolume: when any mountpoint resolves,
query the default subvolume id through that mountpoint's path and store it;
with no mountpoint the call returns with the state untouched. -/
def refresh_default_subvolume (provider : List Char → Except PyErr Int)
    (fs : BtrfsFilesystemRec) : Except PyErr BtrfsFilesystemRec :=
  match get_any_mountpoint fs with
  | none => .ok fs
  | some mountpoint => do
    let id ← provider mountpoint.path
    .ok { fs with default_subvolid := id }

/-- BtrfsFilesystem.get_subvolume_by_id. -/
def get_subvolume_by_id (fs : BtrfsFilesystemRec) (subvolume_id : Int) :
    Option SubvolumeRec :=
  assocGet? fs.subvolumes subvolume_id

/-- BtrfsFilesystem.get_mountpoints_by_subvolume_id. -/
def get_mountpoints_by_subvolume_id (fs : BtrfsFilesystemRec) (subvolume_id : Int) :
    List Mountpoint :=
  (assocGet? fs.mountpoints subvolume_id).getD []

/-- BtrfsFilesystem.contains_device. -/
def contains_device (fs : BtrfsFilesystemRec) (device : List Char) : Bool :=
  fs.devices.contains device

/-- BtrfsSubvolume.get_parent_subvolume: resolve the parent id through the
owning filesystem's subvolume dict. -/
def get_parent_subvolume (fs : BtrfsFilesystemRec) (sv : SubvolumeRec) :
    Option SubvolumeRec :=
  sv.parent.bind (fun p => get_subvolume_by_id fs p)

/-- BtrfsSubvolume.get_mounted_path: the subvolume's own first mountpoint
from the mount table when one exists, else the parent's, walking up; a
subvolume with neither mountpoint nor parent yields none.  Parent chains
in the dict may in principle form a cycle, on which Python recurses forever
(RecursionError); the fuel argument bounds that walk and reports
nonTermination when exhausted. -/
def get_mounted_path (fs : BtrfsFilesystemRec) :
    Nat → SubvolumeRec → Except PyErr (Option Mountpoint)
  | 0, _ => .error .nonTermination
  | fuel + 1, sv =>
    match get_mountpoints_by_subvolume_id fs sv.id with
    | mp :: _ => .ok (some mp)
    | [] =>
      match sv.parent with
      | some pid =>
        match get_subvolume_by_id fs pid with
        | some parent => get_mounted_path fs fuel parent
        | none => .ok none
      | none => .ok none

/-- BtrfsSubvolume.get_child_relative_path: the child path must start with
this subvolume's path; the remainder is returned with leading slashes
stripped, else BtrfsModuleException is raised. -/
def get_child_relative_path (sv : SubvolumeRec) (absolute_child_path : List Char) :
    Except PyErr (List Char) :=
  if sv.path.isPrefixOf absolute_child_path then
    .ok ((absolute_child_path.drop sv.path.length).dropWhile (fun c => c = '/'))
  else .error .btrfsModuleException

/- ------------------------------------------------------------------
   get_nearest_subvolume / get_mountpath_as_child
   (btrfs.py lines 770-796, with __get_subvolumes_by_path at 805-810).

   These functions still contain dict-style accesses left over from an
   earlier revision in which the subvolume dict held plain dicts:
     - __get_subvolumes_by_path evaluates s["path"] on BtrfsSubvolume
       objects, which define no __getitem__, raising TypeError;
     - BtrfsSubvolume(self, ...) passes two arguments to a constructor with
       four required positional parameters, raising TypeError;
     - get_mountpath_as_child evaluates nearest.get_mounted_path() +
       os.path.sep, adding a BtrfsMountpoint object to a str, raising
       TypeError.
   The model keeps each of these dynamic failures explicit.
   ------------------------------------------------------------------ -/

/-- Python s[key] where s is a BtrfsSubvolume: the class defines no
getitem special method, so every subscript raises TypeError. -/
def pySubvolumeGetItem (_sv : SubvolumeRec) (_key : List Char) :
    Except PyErr (List Char) :=
  .error .typeError

/-- Python BtrfsSubvolume(self, some_id): BtrfsSubvolume.__init__ has four
required positional parameters after self, so a two-argument call raises
TypeError for the missing subvol_path and parent arguments. -/
def btrfsSubvolumeCall2 (_subvol_id : Int) : Except PyErr SubvolumeRec :=
  .error .typeError

/-- Python mountpoint + separator inside get_mountpath_as_child:
BtrfsMountpoint defines no addition special method, so adding it to a str
raises TypeError before the rest of the expression is evaluated. -/
def pyAddMountpointStr (_mp : Mountpoint) (_s : List Char) :
    Except PyErr (List Char) :=
  .error .typeError

/-- BtrfsFilesystem.__get_subvolumes_by_path: builds a dict keyed by
s["path"] over the subvolume dict's values; the subscript raises TypeError
at the first value, so the call only returns (an empty dict) when the
subvolume dict is empty. -/
def get_subvolumes_by_path (fs : BtrfsFilesystemRec) :
    Except PyErr (List (List Char × SubvolumeRec)) :=
  fs.subvolumes.foldlM
    (fun result kv => do
      let path ← pySubvolumeGetItem kv.2 "path".toList
      pure (assocInsert result path kv.2))
    []

/-- re.sub with pattern slash-then-final-segment: when the string ends in a
slash followed by a non-empty slash-free segment, remove that trailing
slash and segment; otherwise (no slash before the last segment, or a
trailing slash, or a too-short string) the string is unchanged. -/
def stripLastSegment (s : List Char) : List Char :=
  let rev := s.reverse
  let seg := rev.takeWhile (fun c => c ≠ '/')
  if 0 < seg.length ∧ seg.length < rev.length then
    (rev.drop (seg.length + 1)).reverse
  else s

/-- The while-loop of get_nearest_subvolume.  While more than one character
remains: a hit in the by-path dict evaluates the entry's ["id"] subscript
(TypeError) inside a four-required-argument constructor called with two
arguments; a miss strips the last path segment and retries.  On loop exit
BtrfsSubvolume(self, 5) again raises TypeError.  When the stripping step
makes no progress the Python loop runs forever; the fuel argument (one more
than the initial length suffices for every progressing run, since each
strip removes at least two characters) reports that case as
nonTermination. -/
def nearestLoop (byPath : List (List Char × SubvolumeRec)) :
    Nat → List Char → Except PyErr SubvolumeRec
  | 0, _ => .error .nonTermination
  | fuel + 1, subvolume =>
    if 1 < subvolume.length then
      match assocGet? byPath subvolume with
      | some entry => do
        let _ ← pySubvolumeGetItem entry "id".toList
        btrfsSubvolumeCall2 entry.id
      | none => nearestLoop byPath fuel (stripLastSegment subvolume)
    else
      btrfsSubvolumeCall2 5

/-- BtrfsFilesystem.get_nearest_subvolume: build the by-path dict (TypeError
whenever the subvolume dict is non-empty), then run the stripping loop. -/
def get_nearest_subvolume (fs : BtrfsFilesystemRec) (subvolume : List Char) :
    Except PyErr SubvolumeRec := do
  let subvolumes_by_path ← get_subvolumes_by_path fs
  nearestLoop subvolumes_by_path (subvolume.length + 1) subvolume

/-- BtrfsFilesystem.get_mountpath_as_child: find the nearest subvolume, step
to its parent when the nearest path equals the query, raise
BtrfsModuleException when no parent or no mounted path exists, and
otherwise evaluate mounted-path-plus-separator, which adds a
BtrfsMountpoint object to a str and raises TypeError (so the trailing
get_child_relative_path call is never reached). -/
def get_mountpath_as_child (fs : BtrfsFilesystemRec) (subvolume_name : List Char) :
    Except PyErr (List Char) := do
  let nearest0 ← get_nearest_subvolume fs subvolume_name
  let nearest? :=
    if nearest0.path = subvolume_name then get_parent_subvolume fs nearest0
    else some nearest0
  match nearest? with
  | none => .error .btrfsModuleException
  | some nearest =>
    match ← get_mounted_path fs (fs.subvolumes.length + 1) nearest with
    | none => .error .btrfsModuleException
    | some mp => pyAddMountpointStr mp ['/']

/- ------------------------------------------------------------------
   get_subvolume_by_path (btrfs.py lines 714-736).
   ------------------------------------------------------------------ -/

/-- Python mp != os.pathsep where mp is a BtrfsMountpoint and os.pathsep a
str: with no equality special method defined the comparison falls back to
identity, and an object is never identical to a str, so the result is
always True. -/
def pyNeMountpointStr (_mp : Mountpoint) (_s : List Char) : Bool :=
  true

/-- os.pathsep on the POSIX systems btrfs runs on. -/
def osPathsep : List Char := [':']

/-- BtrfsFilesystem.get_subvolume_by_path: scan every mountpoint of every
mount table entry; os.path.commonpath (modelled as an oracle argument,
which may raise ValueError) gives the match length, compared against a
longest_match variable that is never updated from its initial zero; a
match of length one is skipped by the always-true object-to-str
inequality test; after the scan a missing mountpoint raises
BtrfsModuleException and otherwise the function returns None. -/
def get_subvolume_by_path
    (commonpath : List Char → List Char → Except PyErr (List Char))
    (fs : BtrfsFilesystemRec) (filesystem_path : List Char) :
    Except PyErr (Option SubvolumeRec) := do
  let mountpoint ← fs.mountpoints.foldlM
    (fun (acc : Option Mountpoint) kv =>
      kv.2.foldlM
        (fun (acc : Option Mountpoint) mp => do
          let cp ← commonpath filesystem_path mp.path
          let match_len := cp.length
          if 0 < match_len then
            if match_len = 1 ∧ pyNeMountpointStr mp osPathsep then pure acc
            else pure (some mp)
          else pure acc)
        acc)
    (none : Option Mountpoint)
  match mountpoint with
  | none => .error .btrfsModuleException
  | some _ => pure none

/- ------------------------------------------------------------------
   BtrfsFilesystemsProvider.get_any_matching_filesystem and
   __filesystem_matches_criteria (btrfs.py lines 849-889).
   ------------------------------------------------------------------ -/

/-- The uuid / label / device criteria dict, each entry possibly None. -/
structure Criteria where
  uuid : Option (List Char)
  label : Option (List Char)
  device : Option (List Char)
  deriving DecidableEq

/-- BtrfsFilesystemsProvider.__filesystem_matches_criteria: a None criterion
matches anything; a uuid criterion compares for string equality, a label
criterion compares against the optional label (a filesystem without a label
never equals a supplied string), a device criterion tests device-list
membership through contains_device. -/
def filesystem_matches_criteria (fs : BtrfsFilesystemRec) (criteria : Criteria) :
    Bool :=
  (match criteria.uuid with
   | none => true
   | some u => fs.uuid = u)
  && (match criteria.label with
      | none => true
      | some l => fs.label = some l)
  && (match criteria.device with
      | none => true
      | some d => contains_device fs d)

/-- The in-place canonicalisation of the device criterion at the top of
get_any_matching_filesystem: criteria["device"] is replaced by its
os.path.realpath (modelled as an oracle argument) when not None. -/
def resolveCriteria (realpath : List Char → List Char) (criteria : Criteria) :
    Criteria :=
  match criteria.device with
  | none => criteria
  | some d => { criteria with device := some (realpath d) }

/-- BtrfsFilesystemsProvider.get_any_matching_filesystem: canonicalise the
device criterion, filter the known filesystems by the criteria, return the
single match and raise BtrfsModuleException on zero or several matches. -/
def get_any_matching_filesystem (realpath : List Char → List Char)
    (filesystems : List BtrfsFilesystemRec) (criteria : Criteria) :
    Except PyErr BtrfsFilesystemRec :=
  let criteria := resolveCriteria realpath criteria
  let matching := filesystems.filter (fun f => filesystem_matches_criteria f criteria)
  match matching with
  | [f] => .ok f
  | _ => .error .btrfsModuleException

/- ------------------------------------------------------------------
   BtrfsSubvolume.remove_mountpoint (btrfs.py lines 478-482): rebinds the
   mountpoints field to the comprehension keeping entries whose subvolume
   id differs from the argument's subvolume id.
   ------------------------------------------------------------------ -/

/-- BtrfsSubvolume.remove_mountpoint as the list it rebinds _mountpoints to. -/
def remove_mountpoint (mountpoints : List Mountpoint) (mountpoint : Mountpoint) :
    List Mountpoint :=
  mountpoints.filter (fun mp => mp.subvolume_id ≠ mountpoint.subvolume_id)

/- ------------------------------------------------------------------
   Object-identity model for the mutable default arguments of
   BtrfsSubvolume.__init__ (btrfs.py lines 406-419) and
   BtrfsFilesystem.__init__ (btrfs.py lines 542-565).

   Python evaluates a default argument expression once, when the def
   statement runs; every later call that omits the argument receives the
   very same object.  List objects are therefore modelled in a small heap
   and the objects a constructed instance references are held as heap
   indices.  The module allocates one default list object per defaulted
   parameter: the mountpoints default of BtrfsSubvolume.__init__, and the
   devices, mountpoints and subvolumes defaults of
   BtrfsFilesystem.__init__.
   ------------------------------------------------------------------ -/

/-- The heap of list objects: mountpoint-list objects and
string-list (devices) objects, addressed by index. -/
structure PyHeap where
  mpLists : List (List Mountpoint)
  strLists : List (List (List Char))
  deriving DecidableEq

/-- Identity of the single list object created for the mountpoints default
argument of BtrfsSubvolume.__init__. -/
def subvolDefaultMpRef : Nat := 0

/-- Identity of the single list object created for the mountpoints default
argument of BtrfsFilesystem.__init__. -/
def fsDefaultMpArgRef : Nat := 1

/-- Identity of the single list object created for the devices default
argument of BtrfsFilesystem.__init__. -/
def fsDefaultDevicesRef : Nat := 0

/-- Identity of the single list object created for the subvolumes default
argument of BtrfsFilesystem.__init__ (only its identity matters here, so no
separate store is modelled for subvolume lists). -/
def fsDefaultSvArgRef : Nat := 0

/-- A BtrfsSubvolume object: its scalar fields plus the identity of the
list object bound to _mountpoints. -/
structure SubvolumeObj where
  id : Int
  path : List Char
  parent : Option Int
  mpRef : Nat
  deriving DecidableEq

/-- BtrfsSubvolume.__init__: a call that omits the mountpoints argument
binds _mountpoints to the shared module-level default list object. -/
def mkBtrfsSubvolume (subvol_id : Int) (subvol_path : List Char)
    (parent : Option Int) (mountpointsArg : Option Nat) : SubvolumeObj :=
  { id := subvol_id, path := subvol_path, parent := parent,
    mpRef := mountpointsArg.getD subvolDefaultMpRef }

/-- The value of a subvolume's _mountpoints list, read through the heap. -/
def sv_mountpoints (h : PyHeap) (sv : SubvolumeObj) : List Mountpoint :=
  h.mpLists.getD sv.mpRef []

/-- BtrfsSubvolume.add_mountpoint: when the mountpoint is not yet in the
referenced list object, append to that object in place (visible through
every reference to the same object). -/
def add_mountpoint (h : PyHeap) (sv : SubvolumeObj) (mp : Mountpoint) : PyHeap :=
  let cur := h.mpLists.getD sv.mpRef []
  if mp ∈ cur then h
  else { h with mpLists := h.mpLists.set sv.mpRef (cur ++ [mp]) }

/-- A BtrfsFilesystem object as far as object identity is concerned: the
scalar fields plus the identity of the list object bound to __devices.
The mountpoints and subvolumes arguments are consumed by
update_mountpoints / update_subvolumes, which build fresh dicts (their
value-level behaviour is update_mountpoints / update_subvolumes above), so
only the devices argument object is retained by the instance. -/
structure FilesystemObj where
  uuid : List Char
  label : Option (List Char)
  default_subvolid : Int
  devicesRef : Nat
  deriving DecidableEq

/-- BtrfsFilesystem.__init__ (identity aspects): a call that omits the
devices argument binds __devices to the shared module-level default list
object. -/
def mkBtrfsFilesystem (uuid : List Char) (label : Option (List Char))
    (default_subvolid : Int) (devicesArg _mountpointsArg _subvolumesArg : Option Nat) :
    FilesystemObj :=
  { uuid := uuid, label := label, default_subvolid := default_subvolid,
    devicesRef := devicesArg.getD fsDefaultDevicesRef }

/-- The list objects BtrfsFilesystem.__init__ receives for its mountpoints
and subvolumes parameters: the shared module-level defaults when the
arguments are omitted. -/
def fsInitArgRefs (mountpointsArg subvolumesArg : Option Nat) : Nat × Nat :=
  (mountpointsArg.getD fsDefaultMpArgRef, subvolumesArg.getD fsDefaultSvArgRef)

/-- The value of a filesystem's __devices list, read through the heap. -/
def fs_devices (h : PyHeap) (fs : FilesystemObj) : List (List Char) :=
  h.strLists.getD fs.devicesRef []

/-- current.devices.append(path) as performed by
BtrfsCommands.filesystem_show (btrfs.py line 136): append to the devices
list object in place. -/
def devices_append (h : PyHeap) (fs : FilesystemObj) (device : List Char) : PyHeap :=
  { h with
    strLists := h.strLists.set fs.devicesRef
      (h.strLists.getD fs.devicesRef [] ++ [device]) }

/- ------------------------------------------------------------------
   Concrete fixtures used by the witnesses, counterexamples and
   failing-input evaluations below.
   ------------------------------------------------------------------ -/

/-- A filesystem whose mount table has an entry with an empty mountpoint
list: no live mountpoint at all. -/
def c4fs : BtrfsFilesystemRec :=
  { uuid := "5119d7f".toList, label := some "DATA".toList, default_subvolid := 5,
    devices := ["/dev/sda1".toList], mountpoints := [(5, [])],
    subvolumes := [(5, { id := 5, path := "/".toList, parent := none,
                         mountpoints := [] })] }

/-- Two distinct mountpoints sharing subvolume id 7. -/
def c10mpA : Mountpoint :=
  { path := "/mnt/a".toList, device := "/dev/sda1".toList,
    subvolume_id := 7, subvolume_path := "/a".toList }

/-- Second mountpoint with the same subvolume id as c10mpA. -/
def c10mpB : Mountpoint :=
  { path := "/mnt/b".toList, device := "/dev/sda1".toList,
    subvolume_id := 7, subvolume_path := "/a".toList }

/-- An initially empty filesystem record. -/
def c3fs0 : BtrfsFilesystemRec :=
  { uuid := "2bdcd61d".toList, label := none, default_subvolid := 5,
    devices := ["/dev/sda1".toList], mountpoints := [], subvolumes := [] }

/-- A subvolume record with id 10 and no mountpoints attached. -/
def c3sub : SubvolumeRec :=
  { id := 10, path := "/data".toList, parent := some 5, mountpoints := [] }

/-- A live mountpoint of subvolume id 10. -/
def c3mp : Mountpoint :=
  { path := "/mnt2".toList, device := "/dev/sda1".toList,
    subvolume_id := 10, subvolume_path := "/data".toList }

/-- The filesystem of the C1 scenario: root subvolume id 5 (internal path
"/", no parent) live-mounted at "/mnt", and subvolume id 10 at internal
path "/data" with parent 5 and no mountpoint of its own. -/
def c1fs : BtrfsFilesystemRec :=
  { uuid := "41658c57".toList, label := none, default_subvolid := 5,
    devices := ["/dev/sda1".toList],
    mountpoints := [(5, [{ path := "/mnt".toList, device := "/dev/sda1".toList,
                           subvolume_id := 5, subvolume_path := "/".toList }])],
    subvolumes :=
      [(5, { id := 5, path := "/".toList, parent := none, mountpoints := [] }),
       (10, { id := 10, path := "/data".toList, parent := some 5,
              mountpoints := [] })] }

/-- A filesystem with a mounted root subvolume, for the C2 evaluation. -/
def c2fs : BtrfsFilesystemRec :=
  { uuid := "0e9ad6b0".toList, label := none, default_subvolid := 5,
    devices := ["/dev/sdb1".toList],
    mountpoints := [(5, [{ path := "/".toList, device := "/dev/sdb1".toList,
                           subvolume_id := 5, subvolume_path := "/".toList }])],
    subvolumes :=
      [(5, { id := 5, path := "/".toList, parent := none, mountpoints := [] })] }

/-- A registry of one filesystem for the C5 witness. -/
def c5fsA : BtrfsFilesystemRec :=
  { uuid := "aaaa".toList, label := some "ROOT".toList, default_subvolid := 5,
    devices := ["/dev/sdc1".toList], mountpoints := [], subvolumes := [] }

/-- A uuid-only criteria set matching c5fsA. -/
def c5crit : Criteria :=
  { uuid := some "aaaa".toList, label := none, device := none }

/-- The module-import-time heap: one fresh empty list object per defaulted
list parameter (subvolume mountpoints default, filesystem mountpoints
default; filesystem devices default). -/
def c9heap : PyHeap :=
  { mpLists := [[], []], strLists := [[]] }

/-- A mountpoint added through one default-constructed subvolume. -/
def c9mp : Mountpoint :=
  { path := "/mnt/x".toList, device := "/dev/sdd1".toList,
    subvolume_id := 256, subvolume_path := "/x".toList }

/-- The literal findmnt line of the C6 acceptance half. -/
def c6line : List Char :=
  "TARGET=\"/\" SOURCE=\"/dev/sda1\" FSTYPE=\"btrfs\" OPTIONS=\"rw,subvolid=256,subvol=/@\"".toList

/-- A findmnt line whose options field lacks the subvolid sub-key. -/
def c6lineNoId : List Char :=
  "TARGET=\"/\" SOURCE=\"/dev/sda1\" FSTYPE=\"btrfs\" OPTIONS=\"rw,subvol=/@\"".toList

/-- The groups captured from c6lineNoId. -/
def c6groupsNoId : MatchGroups :=
  { target := "/".toList, source := "/dev/sda1".toList,
    fstype := "btrfs".toList, options := "rw,subvol=/@".toList }

/- ==================================================================
   Theorems
   ================================================================== -/

/-- Every collapse of a non-empty list keeps its head. -/
theorem collapse_cons_head (l : List Char) : ∀ a : Char, ∃ t, collapse (a :: l) = a :: t := by
  induction l with
  | nil => intro a; exact ⟨[], rfl⟩
  | cons b rest ih =>
    intro a
    by_cases h : a = '/' ∧ b = '/'
    · obtain ⟨t, ht⟩ := ih b
      refine ⟨t, ?_⟩
      rw [show collapse (a :: b :: rest) = collapse (b :: rest) by
        simp [collapse, h.1, h.2], ht, h.1, h.2]
    · exact ⟨collapse (b :: rest), by simp [collapse, h]⟩

/-- The collapse of any list has no two consecutive slashes. -/
theorem collapse_noDS (l : List Char) : noDS (collapse l) = true := by
  induction l with
  | nil => rfl
  | cons a t ih =>
    cases t with
    | nil => rfl
    | cons b rest =>
      by_cases h : a = '/' ∧ b = '/'
      · rw [show collapse (a :: b :: rest) = collapse (b :: rest) by
          simp [collapse, h.1, h.2]]
        exact ih
      · obtain ⟨u, hu⟩ := collapse_cons_head rest b
        rw [show collapse (a :: b :: rest) = a :: collapse (b :: rest) by
          simp [collapse, h], hu]
        rw [hu] at ih
        simp only [noDS, Bool.and_eq_true, Bool.not_eq_true']
        exact ⟨by simpa using h, ih⟩

/-- Lists without consecutive slashes are fixed points of collapse. -/
theorem collapse_id (l : List Char) (hl : noDS l = true) : collapse l = l := by
  induction l with
  | nil => rfl
  | cons a t ih =>
    cases t with
    | nil => rfl
    | cons b rest =>
      simp only [noDS, Bool.and_eq_true, Bool.not_eq_true'] at hl
      have h : ¬(a = '/' ∧ b = '/') := by simpa using hl.1
      rw [show collapse (a :: b :: rest) = a :: collapse (b :: rest) by
        simp [collapse, h]]
      rw [ih hl.2]

/-- Unfolding dropTrailingSlashes on a cons cell. -/
theorem dts_cons (c : Char) (l : List Char) :
    dropTrailingSlashes (c :: l) =
      if c = '/' ∧ dropTrailingSlashes l = [] then [] else c :: dropTrailingSlashes l := by
  simp [dropTrailingSlashes]

/-- A non-empty result of dropTrailingSlashes on a cons keeps the head. -/
theorem dts_cons_ne (c : Char) (l : List Char)
    (h : dropTrailingSlashes (c :: l) ≠ []) :
    dropTrailingSlashes (c :: l) = c :: dropTrailingSlashes l := by
  by_cases hc : c = '/' ∧ dropTrailingSlashes l = []
  · rw [dts_cons, if_pos hc] at h
    exact absurd rfl h
  · rw [dts_cons, if_neg hc]

/-- dropTrailingSlashes preserves the absence of consecutive slashes. -/
theorem noDS_dts (l : List Char) (hl : noDS l = true) :
    noDS (dropTrailingSlashes l) = true := by
  induction l with
  | nil => rfl
  | cons a t ih =>
    rw [dts_cons]
    split
    · rfl
    · cases t with
      | nil => rfl
      | cons b rest =>
        simp only [noDS, Bool.and_eq_true, Bool.not_eq_true'] at hl
        have hdts := ih hl.2
        by_cases hne : dropTrailingSlashes (b :: rest) = []
        · rw [hne]; rfl
        · rw [dts_cons_ne b rest hne] at hdts ⊢
          simp only [noDS, Bool.and_eq_true, Bool.not_eq_true']
          exact ⟨hl.1, hdts⟩

/-- dropTrailingSlashes is idempotent. -/
theorem dts_idem (l : List Char) :
    dropTrailingSlashes (dropTrailingSlashes l) = dropTrailingSlashes l := by
  induction l with
  | nil => rfl
  | cons c rest ih =>
    by_cases hc : c = '/' ∧ dropTrailingSlashes rest = []
    · rw [dts_cons, if_pos hc]
      rfl
    · rw [dts_cons, if_neg hc, dts_cons, ih, if_neg hc]

/-- A list starting with a slash is untouched by the FS_TREE stripping. -/
theorem stripFsTree_slash (t : List Char) : stripFsTree ('/' :: t) = '/' :: t := by
  rfl

/-- Canonical normalized paths (slash-headed, no consecutive slashes, no
trailing slash) are fixed points of normalize_subvolume_path. -/
theorem normalize_fix (t : List Char) (hq : noDS ('/' :: t) = true)
    (hdts : dropTrailingSlashes ('/' :: t) = '/' :: t) :
    normalize_subvolume_path ('/' :: t) = '/' :: t := by
  unfold normalize_subvolume_path
  rw [stripFsTree_slash]
  rw [show collapse ('/' :: '/' :: t) = collapse ('/' :: t) by simp [collapse]]
  rw [collapse_id _ hq, hdts]
  simp

/-- C7: normalize_subvolume_path is idempotent; being a total Lean function
over all character lists it is in addition pure and total. -/
theorem c7_normalize_subvolume_path_idempotent (p : List Char) :
    normalize_subvolume_path (normalize_subvolume_path p) =
      normalize_subvolume_path p := by
  by_cases hr : dropTrailingSlashes (collapse ('/' :: stripFsTree p)) = []
  · have h1 : normalize_subvolume_path p = ['/'] := by
      unfold normalize_subvolume_path
      rw [if_pos hr]
    rw [h1]
    rfl
  · have h1 : normalize_subvolume_path p =
        dropTrailingSlashes (collapse ('/' :: stripFsTree p)) := by
      unfold normalize_subvolume_path
      rw [if_neg hr]
    obtain ⟨u, hu⟩ := collapse_cons_head (stripFsTree p) '/'
    have hhead : dropTrailingSlashes (collapse ('/' :: stripFsTree p)) =
        '/' :: dropTrailingSlashes u := by
      rw [hu]
      exact dts_cons_ne '/' u (by rw [← hu]; exact hr)
    have hnods : noDS (dropTrailingSlashes (collapse ('/' :: stripFsTree p))) = true :=
      noDS_dts _ (collapse_noDS _)
    have hfix : dropTrailingSlashes
        ('/' :: dropTrailingSlashes u) = '/' :: dropTrailingSlashes u := by
      rw [← hhead]
      exact dts_idem _
    rw [h1, hhead]
    rw [hhead] at hnods
    exact normalize_fix _ hnods hfix

/-- C10: remove_mountpoint filters by subvolume id, not mountpoint identity:
the surviving entries are exactly the previous ones whose subvolume id
differs from the argument's, and when every stored mountpoint carries the
argument's subvolume id the whole list is emptied. -/
theorem c10_remove_mountpoint_filters_by_id (l : List Mountpoint) (mp : Mountpoint) :
    (∀ x : Mountpoint,
      x ∈ remove_mountpoint l mp ↔ (x ∈ l ∧ x.subvolume_id ≠ mp.subvolume_id)) ∧
    ((∀ y ∈ l, y.subvolume_id = mp.subvolume_id) → remove_mountpoint l mp = []) := by
  constructor
  · intro x
    simp [remove_mountpoint, List.mem_filter]
  · intro hall
    simp only [remove_mountpoint, List.filter_eq_nil_iff]
    intro a ha
    simp [hall a ha]

/-- Witness for C10 at a concrete input: two distinct mountpoints of
subvolume id 7 are both removed by a single remove_mountpoint call whose
argument also has subvolume id 7. -/
theorem c10_witness :
    (∀ y ∈ [c10mpA, c10mpB], y.subvolume_id = c10mpA.subvolume_id) ∧
    remove_mountpoint [c10mpA, c10mpB] c10mpA = [] :=
  ⟨by decide, (c10_remove_mountpoint_filters_by_id [c10mpA, c10mpB] c10mpA).2 (by decide)⟩

/-- A bind whose continuation only yields an error or an empty result never
yields a present result. -/
theorem except_bind_tail {α β : Type} (r : Except PyErr α)
    (f : α → Except PyErr (Option β))
    (hf : ∀ a, f a = .ok none ∨ ∃ e, f a = .error e) :
    (r >>= f) = .ok none ∨ ∃ e, (r >>= f) = .error e := by
  cases r with
  | error e => exact Or.inr ⟨e, rfl⟩
  | ok a => exact hf a

/-- C8: get_subvolume_by_path never returns a subvolume: for every
commonpath oracle, filesystem state and query path the call either raises
or returns no match. -/
theorem c8_get_subvolume_by_path_never_finds
    (commonpath : List Char → List Char → Except PyErr (List Char))
    (fs : BtrfsFilesystemRec) (filesystem_path : List Char) :
    get_subvolume_by_path commonpath fs filesystem_path = .ok none ∨
    ∃ e, get_subvolume_by_path commonpath fs filesystem_path = .error e := by
  unfold get_subvolume_by_path
  apply except_bind_tail
  intro a
  cases a with
  | none => exact Or.inr ⟨.btrfsModuleException, rfl⟩
  | some mp => exact Or.inl rfl

/-- C4: with no live mountpoint at all, refresh_subvolumes and
refresh_default_subvolume raise nothing and return the state unchanged,
whatever the provider would have answered (even a failing provider is
never consulted). -/
theorem c4_refresh_noop_without_mountpoint
    (providerSubvols : Except PyErr (List SubvolumeRec))
    (providerDefault : List Char → Except PyErr Int)
    (fs : BtrfsFilesystemRec)
    (h : get_any_mountpoint fs = none) :
    refresh_subvolumes providerSubvols fs = .ok fs ∧
    refresh_default_subvolume providerDefault fs = .ok fs := by
  constructor
  · unfold refresh_subvolumes
    rw [h]
  · unfold refresh_default_subvolume
    rw [h]

/-- Witness for C4 at a concrete input: a filesystem whose mount table
holds only an empty list is left untouched by both refreshes, with
providers that would fail if consulted. -/
theorem c4_witness :
    get_any_mountpoint c4fs = none ∧
    refresh_subvolumes (.error .btrfsModuleException) c4fs = .ok c4fs ∧
    refresh_default_subvolume (fun _ => .error .btrfsModuleException) c4fs = .ok c4fs :=
  ⟨rfl,
   (c4_refresh_noop_without_mountpoint (.error .btrfsModuleException)
     (fun _ => .error .btrfsModuleException) c4fs rfl).1,
   (c4_refresh_noop_without_mountpoint (.error .btrfsModuleException)
     (fun _ => .error .btrfsModuleException) c4fs rfl).2⟩

/-- Per-criterion unfolding of filesystem_matches_criteria after device
canonicalisation: every supplied criterion must match exactly (uuid by
string equality, label by optional equality, device by membership of the
canonical path in the device list). -/
theorem matches_criteria_iff (f : BtrfsFilesystemRec)
    (realpath : List Char → List Char) (criteria : Criteria) :
    filesystem_matches_criteria f (resolveCriteria realpath criteria) = true ↔
      ((∀ u, criteria.uuid = some u → f.uuid = u) ∧
       (∀ l, criteria.label = some l → f.label = some l) ∧
       (∀ d, criteria.device = some d → realpath d ∈ f.devices)) := by
  rcases criteria with ⟨u?, l?, d?⟩
  cases u? <;> cases l? <;> cases d? <;>
    simp [filesystem_matches_criteria, resolveCriteria, contains_device, and_assoc]

/-- C5: get_any_matching_filesystem canonicalises the device criterion,
requires every supplied criterion to match exactly, succeeds exactly when
the criteria select a single filesystem (returning that filesystem), and
raises on zero or several matches. -/
theorem c5_get_any_matching_filesystem_exact
    (realpath : List Char → List Char) (filesystems : List BtrfsFilesystemRec)
    (criteria : Criteria) :
    ((filesystems.filter
        (fun f => filesystem_matches_criteria f (resolveCriteria realpath criteria))).length
        = 1 ↔
      ∃ f, get_any_matching_filesystem realpath filesystems criteria = .ok f) ∧
    (∀ f, get_any_matching_filesystem realpath filesystems criteria = .ok f →
      filesystems.filter
        (fun g => filesystem_matches_criteria g (resolveCriteria realpath criteria)) = [f]) ∧
    ((filesystems.filter
        (fun f => filesystem_matches_criteria f (resolveCriteria realpath criteria))).length
        ≠ 1 →
      get_any_matching_filesystem realpath filesystems criteria =
        .error .btrfsModuleException) ∧
    (∀ f, filesystem_matches_criteria f (resolveCriteria realpath criteria) = true ↔
      ((∀ u, criteria.uuid = some u → f.uuid = u) ∧
       (∀ l, criteria.label = some l → f.label = some l) ∧
       (∀ d, criteria.device = some d → realpath d ∈ f.devices))) := by
  have hdef : get_any_matching_filesystem realpath filesystems criteria =
      match filesystems.filter
        (fun f => filesystem_matches_criteria f (resolveCriteria realpath criteria)) with
      | [f] => .ok f
      | _ => .error .btrfsModuleException := rfl
  refine ⟨?_, ?_, ?_, fun f => matches_criteria_iff f realpath criteria⟩
  · rcases hm : filesystems.filter
        (fun f => filesystem_matches_criteria f (resolveCriteria realpath criteria)) with
      _ | ⟨a, _ | ⟨b, t⟩⟩ <;>
      rw [hm] at hdef <;> simp [hdef]
  · intro f hok
    rw [hdef] at hok
    rcases hm : filesystems.filter
        (fun g => filesystem_matches_criteria g (resolveCriteria realpath criteria)) with
      _ | ⟨a, _ | ⟨b, t⟩⟩ <;> rw [hm] at hok <;> simp at hok
    rw [hok]
  · intro hne
    rw [hdef]
    rcases hm : filesystems.filter
        (fun f => filesystem_matches_criteria f (resolveCriteria realpath criteria)) with
      _ | ⟨a, _ | ⟨b, t⟩⟩
    · rfl
    · rw [hm] at hne
      simp at hne
    · rfl

/-- Witness for C5 at a concrete input: a single-filesystem registry and a
uuid-only criteria set select exactly one filesystem and the lookup
succeeds. -/
theorem c5_witness :
    ∃ f, get_any_matching_filesystem (fun d => d) [c5fsA] c5crit = .ok f :=
  ((c5_get_any_matching_filesystem_exact (fun d => d) [c5fsA] c5crit).1).mp (by decide)

/-- C6: the findmnt line parser raises on every matched line whose options
field lacks the subvolid sub-key, and accepts the literal line
TARGET="/" SOURCE="/dev/sda1" FSTYPE="btrfs"
OPTIONS="rw,subvolid=256,subvol=/@" as the mountpoint record with path "/",
device "/dev/sda1", subvolume id 256 and subvolume path "/@". -/
theorem c6_mount_parser_subvolid
    : (∀ (line : List Char) (g : MatchGroups),
        findmntMatch line = some g →
        assocGet? (extract_mount_options g.options) "subvolid".toList = none →
        parse_mountpoint_pairs line = .error .btrfsModuleException) ∧
      parse_mountpoint_pairs c6line =
        .ok { path := "/".toList, device := "/dev/sda1".toList,
              subvolume_id := 256, subvolume_path := "/@".toList } := by
  constructor
  · intro line g hm hget
    simp only [parse_mountpoint_pairs, hm, hget]
  · rfl

/-- Witness for C6 at a concrete input: a matched line with options
"rw,subvol=/@" lacks subvolid and the parser raises. -/
theorem c6_witness :
    findmntMatch c6lineNoId = some c6groupsNoId ∧
    assocGet? (extract_mount_options c6groupsNoId.options) "subvolid".toList = none ∧
    parse_mountpoint_pairs c6lineNoId = .error .btrfsModuleException :=
  ⟨rfl, rfl, c6_mount_parser_subvolid.1 c6lineNoId c6groupsNoId rfl rfl⟩

/-- Unfolding dict lookup on a cons cell. -/
theorem assocGet_cons {κ α : Type} [DecidableEq κ]
    (kv : κ × α) (rest : List (κ × α)) (k : κ) :
    assocGet? (kv :: rest) k = if kv.1 = k then some kv.2 else assocGet? rest k := by
  simp only [assocGet?, List.find?_cons]
  by_cases h : kv.1 = k
  · simp [h]
  · simp [h]

/-- Lookup after dict insertion: the inserted key maps to the new value and
every other key is unaffected. -/
theorem assocGet_assocInsert {κ α : Type} [DecidableEq κ]
    (d : List (κ × α)) (k k' : κ) (v : α) :
    assocGet? (assocInsert d k v) k' = if k' = k then some v else assocGet? d k' := by
  induction d with
  | nil =>
    rw [show assocInsert ([] : List (κ × α)) k v = [(k, v)] from rfl, assocGet_cons]
    by_cases h : k' = k
    · rw [if_pos h, if_pos h.symm]
    · rw [if_neg h, if_neg (fun hh : k = k' => h hh.symm)]
  | cons kv rest ih =>
    rw [show assocInsert (kv :: rest) k v =
      if kv.1 = k then (k, v) :: rest else kv :: assocInsert rest k v from rfl]
    by_cases hk : kv.1 = k
    · rw [if_pos hk, assocGet_cons, assocGet_cons]
      by_cases h : k' = k
      · rw [if_pos h, if_pos h.symm]
      · rw [if_neg h, if_neg (fun hh : k = k' => h hh.symm),
          if_neg (fun hh : kv.1 = k' => h ((hk.symm.trans hh).symm))]
    · rw [if_neg hk, assocGet_cons, assocGet_cons, ih]
      by_cases h : k' = k
      · rw [if_pos h, if_pos h, if_neg (fun hh : kv.1 = k' => hk (hh.trans h))]
      · rw [if_neg h, if_neg h]

/-- Invariant of the update_subvolumes fold: starting from a dict whose
entries are consistent with the mount table, every entry of the resulting
dict whose id has a mount table entry carries exactly that entry. -/
theorem update_subvolumes_fold_invariant (tbl : List (Int × List Mountpoint)) :
    ∀ (S : List SubvolumeRec) (d : List (Int × SubvolumeRec)),
    (∀ i sv, assocGet? d i = some sv →
      ∀ e, assocGet? tbl i = some e → sv.mountpoints = e) →
    ∀ i sv,
      assocGet? (S.foldl
        (fun d subvolume =>
          let subvolume :=
            match assocGet? tbl subvolume.id with
            | some mps => { subvolume with mountpoints := mps }
            | none => subvolume
          assocInsert d subvolume.id subvolume) d) i = some sv →
    ∀ e, assocGet? tbl i = some e → sv.mountpoints = e := by
  intro S
  induction S with
  | nil => intro d hd; exact hd
  | cons s S ih =>
    intro d hd
    simp only [List.foldl_cons]
    apply ih
    intro i sv hget e htbl
    have hid : (match assocGet? tbl s.id with
        | some mps => { s with mountpoints := mps }
        | none => s).id = s.id := by
      cases assocGet? tbl s.id <;> rfl
    rw [assocGet_assocInsert] at hget
    by_cases hi : i = (match assocGet? tbl s.id with
        | some mps => { s with mountpoints := mps }
        | none => s).id
    · rw [if_pos hi] at hget
      rw [hid] at hi
      rw [hi] at htbl
      rw [htbl] at hget
      cases hget
      rfl
    · rw [if_neg hi] at hget
      exact hd i sv hget e htbl

/-- C3 counterexample: applying update_subvolumes before update_mountpoints
on a concrete state loses the cross-reference: id 10 is present in both the
inserted subvolume list and the mount table built from the mountpoint list,
yet the stored subvolume keeps an empty mountpoints list while the table
entry holds the mountpoint. -/
theorem c3_counterexample :
    assocGet? ((update_mountpoints (update_subvolumes c3fs0 [c3sub]) [c3mp]).subvolumes) 10
      = some c3sub ∧
    assocGet? ((update_mountpoints (update_subvolumes c3fs0 [c3sub]) [c3mp]).mountpoints) 10
      = some [c3mp] ∧
    c3sub.mountpoints ≠ [c3mp] :=
  ⟨rfl, rfl, by decide⟩

/-- C3 (amended): applying update_mountpoints first and update_subvolumes
second leaves every stored subvolume whose id has a mount table entry
carrying exactly that entry; the reverse order does not re-attach (see the
counterexample). -/
theorem c3_update_order_consistency
    (fs : BtrfsFilesystemRec) (M : List Mountpoint) (S : List SubvolumeRec)
    (i : Int) (sv : SubvolumeRec) (entry : List Mountpoint)
    (hsv : assocGet? ((update_subvolumes (update_mountpoints fs M) S).subvolumes) i
      = some sv)
    (hmp : assocGet? ((update_subvolumes (update_mountpoints fs M) S).mountpoints) i
      = some entry) :
    sv.mountpoints = entry := by
  simp only [update_subvolumes] at hsv hmp
  exact update_subvolumes_fold_invariant (update_mountpoints fs M).mountpoints S []
    (by intro i sv h; simp [assocGet?] at h) i sv hsv entry hmp

/-- Witness for C3 at a concrete input: with the mountpoint refresh first
and the subvolume refresh second, the stored subvolume for id 10 carries
the mount table entry. -/
theorem c3_witness :
    assocGet? ((update_subvolumes (update_mountpoints c3fs0 [c3mp]) [c3sub]).subvolumes) 10
      = some { c3sub with mountpoints := [c3mp] } ∧
    assocGet? ((update_subvolumes (update_mountpoints c3fs0 [c3mp]) [c3sub]).mountpoints) 10
      = some [c3mp] ∧
    ({ c3sub with mountpoints := [c3mp] } : SubvolumeRec).mountpoints = [c3mp] :=
  ⟨rfl, rfl,
   c3_update_order_consistency c3fs0 [c3mp] [c3sub] 10
     { c3sub with mountpoints := [c3mp] } [c3mp] rfl rfl⟩

/-- Reading a just-written heap slot yields the written value. -/
theorem getD_set_self {α : Type} (l : List α) (n : Nat) (v d : α)
    (h : n < l.length) : (l.set n v).getD n d = v := by
  induction l generalizing n with
  | nil => simp at h
  | cons a t ih =>
    cases n with
    | zero => rfl
    | succ m =>
      simp only [List.set, List.getD, List.getElem?_cons_succ]
      have := ih m (by simpa using h)
      simpa [List.getD] using this

/-- C9: every BtrfsSubvolume constructed without an explicit mountpoints
argument references the one shared default list object, so an
add_mountpoint through any one of them is visible in the mountpoints of
every other; likewise two BtrfsFilesystem instances constructed without an
explicit devices argument share the one default devices object (an append
through one is visible in the other), and the default mountpoints and
subvolumes arguments of BtrfsFilesystem.__init__ resolve to the same
shared objects on every call. -/
theorem c9_shared_mutable_defaults :
    (∀ (h : PyHeap), subvolDefaultMpRef < h.mpLists.length →
      ∀ (i1 : Int) (p1 : List Char) (pa1 : Option Int)
        (i2 : Int) (p2 : List Char) (pa2 : Option Int) (mp : Mountpoint),
        mp ∈ sv_mountpoints
          (add_mountpoint h (mkBtrfsSubvolume i1 p1 pa1 none) mp)
          (mkBtrfsSubvolume i2 p2 pa2 none)) ∧
    (∀ (h : PyHeap), fsDefaultDevicesRef < h.strLists.length →
      ∀ (u1 : List Char) (l1 : Option (List Char)) (d1 : Int)
        (u2 : List Char) (l2 : Option (List Char)) (d2 : Int) (dev : List Char),
        dev ∈ fs_devices
          (devices_append h (mkBtrfsFilesystem u1 l1 d1 none none none) dev)
          (mkBtrfsFilesystem u2 l2 d2 none none none) ∧
        (mkBtrfsFilesystem u1 l1 d1 none none none).devicesRef =
          (mkBtrfsFilesystem u2 l2 d2 none none none).devicesRef) ∧
    fsInitArgRefs none none = (fsDefaultMpArgRef, fsDefaultSvArgRef) := by
  refine ⟨?_, ?_, rfl⟩
  · intro h hlen i1 p1 pa1 i2 p2 pa2 mp
    have href1 : (mkBtrfsSubvolume i1 p1 pa1 none).mpRef = subvolDefaultMpRef := rfl
    have href2 : (mkBtrfsSubvolume i2 p2 pa2 none).mpRef = subvolDefaultMpRef := rfl
    unfold add_mountpoint sv_mountpoints
    rw [href1, href2]
    by_cases hmem : mp ∈ h.mpLists.getD subvolDefaultMpRef []
    · rw [if_pos hmem]
      exact hmem
    · rw [if_neg hmem]
      simp only
      rw [getD_set_self _ _ _ _ hlen]
      simp
  · intro h hlen u1 l1 d1 u2 l2 d2 dev
    refine ⟨?_, rfl⟩
    have href1 : (mkBtrfsFilesystem u1 l1 d1 none none none).devicesRef =
      fsDefaultDevicesRef := rfl
    have href2 : (mkBtrfsFilesystem u2 l2 d2 none none none).devicesRef =
      fsDefaultDevicesRef := rfl
    unfold devices_append fs_devices
    rw [href1, href2]
    simp only
    rw [getD_set_self _ _ _ _ hlen]
    simp

/-- Witness for C9 at a concrete input: on the import-time heap, a
mountpoint added through one default-constructed subvolume shows up in a
different default-constructed subvolume, and a device appended through one
default-constructed filesystem shows up in a different one. -/
theorem c9_witness :
    c9mp ∈ sv_mountpoints
      (add_mountpoint c9heap (mkBtrfsSubvolume 5 "/".toList none none) c9mp)
      (mkBtrfsSubvolume 10 "/x".toList (some 5) none) ∧
    "/dev/sde1".toList ∈ fs_devices
      (devices_append c9heap
        (mkBtrfsFilesystem "u1".toList none 5 none none none) "/dev/sde1".toList)
      (mkBtrfsFilesystem "u2".toList none 5 none none none) :=
  ⟨c9_shared_mutable_defaults.1 c9heap (by decide) 5 "/".toList none
     10 "/x".toList (some 5) c9mp,
   (c9_shared_mutable_defaults.2.1 c9heap (by decide) "u1".toList none 5
     "u2".toList none 5 "/dev/sde1".toList).1⟩

/-- C1 (failing input): on the exact scenario of the claim (root id 5
live-mounted at "/mnt", subvolume id 10 at internal path "/data" parented
at 5 with no mountpoint of its own), get_mountpath_as_child("/data/x")
does not return "/mnt/data/x": it raises TypeError, because
get_nearest_subvolume subscripts the stored BtrfsSubvolume objects
dict-style over the non-empty subvolume dict. -/
theorem c1_get_mountpath_as_child_raises :
    get_mountpath_as_child c1fs "/data/x".toList = .error .typeError := rfl

/-- C2 (failing input): get_nearest_subvolume neither is total nor returns
a subvolume: on a filesystem whose subvolume dict holds the root record it
raises TypeError at the first dict-style subscript of a BtrfsSubvolume
object (and with an empty subvolume dict the loop exit still calls
BtrfsSubvolume with only two of its four required arguments, again
TypeError). -/
theorem c2_get_nearest_subvolume_raises :
    get_nearest_subvolume c2fs "/data".toList = .error .typeError ∧
    get_nearest_subvolume c3fs0 "/data".toList = .error .typeError :=
  ⟨rfl, rfl⟩
